import Mathlib

/-!
Shallow embedding of `src/fake_api/internal/source/dummydb.py`: a dummy
database producing a synthetic time series of predicted solar yield.

Modelling conventions:
* Python floats are modelled as real numbers (`ℝ`); `math.sin` is `Real.sin`,
  `math.pi` is `Real.pi`.
* Each call to `random.random()` is modelled as an explicitly passed
  parameter, universally quantified over `[0,1]` in the theorems.
* `dt.datetime.fromtimestamp` (standard library, local-time conversion) is
  modelled abstractly: a `LocalTime` structure holds the calendar breakdown
  fields the code reads (`month`, `day`, `hour`, `minute`, `second`), and the
  conversion is an arbitrary function `ℤ → LocalTime`.
* Instants are integer epoch seconds (`ℤ`).  `datetime.replace(hour=0, ...)`
  on a UTC datetime floors the instant to its UTC day boundary.
* Python `int(x)` on a float truncates toward zero; `pyInt` models this.
-/

/-- Calendar breakdown of an instant, as produced by the local-time
conversion `dt.datetime.fromtimestamp`.  Only the fields read by the code
are modelled. -/
structure LocalTime where
  month : ℕ
  day : ℕ
  hour : ℕ
  minute : ℕ
  second : ℕ
deriving DecidableEq

/-- Defines a fake yield data point (dataclass `FakeYield`). -/
structure FakeYield where
  YieldKW : ℝ
  ErrLow : ℝ
  ErrHigh : ℝ

/-- Modelled from the spec: the output record type `internal.DBPredictedYield`
lives in `fake_api/internal`, which is not under `src/`.  Per the spec it is
`{ timeUnix: integer epoch seconds, yieldKW: integer, errLow: integer,
errHigh: integer }`. -/
structure DBPredictedYield where
  TimeUnix : ℤ
  YieldKW : ℤ
  ErrLow : ℤ
  ErrHigh : ℤ
deriving DecidableEq

/-- Python `int(x)` applied to a float: truncation toward zero. -/
noncomputable def pyInt (x : ℝ) : ℤ := if 0 ≤ x then ⌊x⌋ else ⌈x⌉

/-- The x values of the yield function are hours:
`hour = time.day * 24 + time.hour + time.minute / 60 + time.second / 3600`. -/
noncomputable def hourOf (time : LocalTime) : ℝ :=
  (time.day : ℝ) * 24 + (time.hour : ℝ) + (time.minute : ℝ) / 60 + (time.second : ℝ) / 3600

/-- scaleX makes the period of the function 24 hours. -/
noncomputable def scaleX : ℝ := Real.pi / 12

/-- translateX moves the minimum of the function to 0 hours. -/
noncomputable def translateX : ℝ := -Real.pi / 2

/-- translateY modulates the base function based on the month. -/
noncomputable def translateY (time : LocalTime) : ℝ :=
  Real.sin ((Real.pi / 6) * (time.month : ℝ) + translateX) / 2.0

/-- The base function after clipping negatives and steepening:
`basefunc = max(0, sin(scaleX*hour + translateX) + translateY) ** 4 / 1.5 ** 4`. -/
noncomputable def basefunc (time : LocalTime) : ℝ :=
  (max 0 (Real.sin (scaleX * hourOf time + translateX) + translateY time)) ^ 4 / (1.5 : ℝ) ^ 4

/-- The noise factor, with `r1` standing for the `random.random()` draw:
`noise = ((sin(pi*hour)/20) * sin(pi*hour/3) + 1) * r1 / 20 + 0.97`. -/
noncomputable def noise (time : LocalTime) (r1 : ℝ) : ℝ :=
  ((Real.sin (Real.pi * (time.hour : ℝ)) / 20) * (Real.sin (Real.pi * (time.hour : ℝ) / 3)) + 1)
    * r1 / 20 + 0.97

/-- `BasicSolarYieldFunc`: the fake solar yield for the given (already
converted) local time; `r1` is the noise draw, `r2` and `r3` the error-bound
draws, each a `random.random()` result. -/
noncomputable def BasicSolarYieldFunc (time : LocalTime) (scaleFactor : ℝ)
    (r1 r2 r3 : ℝ) : FakeYield :=
  let output := basefunc time * noise time r1 * scaleFactor
  { YieldKW := output
    ErrLow := if output > 0 then output - (r2 * output / 10) else 0
    ErrHigh := if output > 0 then output + (r3 * output / 10) else 0 }

/-- step defines the time interval between each data point (5 minutes, in
seconds). -/
def step : ℤ := 300

/-- The UTC-midnight floor of an instant, modelling
`datetime.replace(hour=0, minute=0, second=0, microsecond=0)` on a
UTC-zoned datetime. -/
def midnightUTC (t : ℤ) : ℤ := 86400 * (t / 86400)

/-- `getWindow`: start is the beginning of the day two days before the first
`now()` call, end is the beginning of the day two days after the second
`now()` call. -/
def getWindow (now1 now2 : ℤ) : ℤ × ℤ :=
  (midnightUTC (now1 - 2 * 86400), midnightUTC (now2 + 2 * 86400))

/-- `DummyDatabase.get_predicted_solar_yields_for_location`.  `localtime`
models `dt.datetime.fromtimestamp`; `draws i` are the three `random.random()`
results consumed at step `i`; `now1`/`now2` are the two `datetime.now` calls
inside `getWindow`. -/
noncomputable def get_predicted_solar_yields_for_location
    (localtime : ℤ → LocalTime) (draws : ℕ → ℝ × ℝ × ℝ)
    (location : String) (now1 now2 : ℤ) : List DBPredictedYield :=
  let w := getWindow now1 now2
  let numSteps : ℤ := (w.2 - w.1).tdiv step
  (List.range numSteps.toNat).map (fun i =>
    let time : ℤ := w.1 + Int.ofNat i * step
    let r := draws i
    let y := BasicSolarYieldFunc (localtime time) 10000 r.1 r.2.1 r.2.2
    { TimeUnix := time
      YieldKW := pyInt y.YieldKW
      ErrLow := pyInt y.ErrLow
      ErrHigh := pyInt y.ErrHigh })

/-! ## Helper lemmas -/

/-- The deterministic noise envelope is exactly 1: `time.hour` is an integer,
so `sin(pi * hour)` is exactly 0 and the noise reduces to `r1/20 + 0.97`. -/
theorem noise_eq (time : LocalTime) (r1 : ℝ) : noise time r1 = r1 / 20 + 0.97 := by
  unfold noise
  rw [mul_comm Real.pi (time.hour : ℝ), Real.sin_nat_mul_pi]
  ring

theorem basefunc_nonneg (time : LocalTime) : 0 ≤ basefunc time := by
  unfold basefunc
  positivity

theorem basefunc_le_one (time : LocalTime) : basefunc time ≤ 1 := by
  unfold basefunc
  rw [div_le_one (by positivity)]
  have h1 : Real.sin (scaleX * hourOf time + translateX) + translateY time ≤ 1.5 := by
    have hs := Real.sin_le_one (scaleX * hourOf time + translateX)
    have ht : translateY time ≤ 1 / 2 := by
      unfold translateY
      have := Real.sin_le_one ((Real.pi / 6) * (time.month : ℝ) + translateX)
      linarith
    linarith
  have h2 : max 0 (Real.sin (scaleX * hourOf time + translateX) + translateY time) ≤ 1.5 :=
    max_le (by norm_num) h1
  exact pow_le_pow_left₀ (le_max_left _ _) h2 4

theorem yieldKW_eq (time : LocalTime) (scaleFactor r1 r2 r3 : ℝ) :
    (BasicSolarYieldFunc time scaleFactor r1 r2 r3).YieldKW
      = basefunc time * noise time r1 * scaleFactor := rfl

theorem errLow_eq (time : LocalTime) (scaleFactor r1 r2 r3 : ℝ) :
    (BasicSolarYieldFunc time scaleFactor r1 r2 r3).ErrLow
      = if basefunc time * noise time r1 * scaleFactor > 0
        then basefunc time * noise time r1 * scaleFactor
          - (r2 * (basefunc time * noise time r1 * scaleFactor) / 10)
        else 0 := rfl

theorem errHigh_eq (time : LocalTime) (scaleFactor r1 r2 r3 : ℝ) :
    (BasicSolarYieldFunc time scaleFactor r1 r2 r3).ErrHigh
      = if basefunc time * noise time r1 * scaleFactor > 0
        then basefunc time * noise time r1 * scaleFactor
          + (r3 * (basefunc time * noise time r1 * scaleFactor) / 10)
        else 0 := rfl

/-- When the computed output is zero the `output > 0` branch is not taken,
so both error bounds keep their initial value 0. -/
theorem errs_zero_of_yield_zero (time : LocalTime) (scaleFactor r1 r2 r3 : ℝ)
    (h : (BasicSolarYieldFunc time scaleFactor r1 r2 r3).YieldKW = 0) :
    (BasicSolarYieldFunc time scaleFactor r1 r2 r3).ErrLow = 0 ∧
    (BasicSolarYieldFunc time scaleFactor r1 r2 r3).ErrHigh = 0 := by
  have hout : basefunc time * noise time r1 * scaleFactor = 0 := h
  rw [errLow_eq, errHigh_eq, hout]
  norm_num

/-- The yield is nonnegative whenever the scale factor and the noise draw
are nonnegative. -/
theorem yield_nonneg (time : LocalTime) (scaleFactor r1 r2 r3 : ℝ)
    (hsf : 0 ≤ scaleFactor) (hr1l : 0 ≤ r1) :
    0 ≤ (BasicSolarYieldFunc time scaleFactor r1 r2 r3).YieldKW := by
  rw [yieldKW_eq]
  have hb := basefunc_nonneg time
  have hn : 0 ≤ noise time r1 := by rw [noise_eq]; linarith
  exact mul_nonneg (mul_nonneg hb hn) hsf

/-- The error band around a strictly positive yield: each bound within 10%
of the point value. -/
theorem sample_band_of_pos (time : LocalTime) (scaleFactor r1 r2 r3 : ℝ)
    (hr2l : 0 ≤ r2) (hr2u : r2 ≤ 1) (hr3l : 0 ≤ r3) (hr3u : r3 ≤ 1)
    (hpos : 0 < (BasicSolarYieldFunc time scaleFactor r1 r2 r3).YieldKW) :
    0.9 * (BasicSolarYieldFunc time scaleFactor r1 r2 r3).YieldKW
        ≤ (BasicSolarYieldFunc time scaleFactor r1 r2 r3).ErrLow ∧
    (BasicSolarYieldFunc time scaleFactor r1 r2 r3).ErrLow
        ≤ (BasicSolarYieldFunc time scaleFactor r1 r2 r3).YieldKW ∧
    (BasicSolarYieldFunc time scaleFactor r1 r2 r3).YieldKW
        ≤ (BasicSolarYieldFunc time scaleFactor r1 r2 r3).ErrHigh ∧
    (BasicSolarYieldFunc time scaleFactor r1 r2 r3).ErrHigh
        ≤ 1.1 * (BasicSolarYieldFunc time scaleFactor r1 r2 r3).YieldKW := by
  have hpos' : 0 < basefunc time * noise time r1 * scaleFactor := hpos
  rw [yieldKW_eq, errLow_eq, errHigh_eq, if_pos hpos', if_pos hpos']
  set o : ℝ := basefunc time * noise time r1 * scaleFactor with ho
  have h2 : r2 * o ≤ 1 * o := mul_le_mul_of_nonneg_right hr2u hpos'.le
  have h2' : 0 ≤ r2 * o := mul_nonneg hr2l hpos'.le
  have h3 : r3 * o ≤ 1 * o := mul_le_mul_of_nonneg_right hr3u hpos'.le
  have h3' : 0 ≤ r3 * o := mul_nonneg hr3l hpos'.le
  refine ⟨by linarith, by linarith, by linarith, by linarith⟩

/-- The (real-valued) sample fields are always ordered
`0 ≤ ErrLow ≤ YieldKW ≤ ErrHigh` when the yield is nonnegative and the
error draws lie in `[0,1]`. -/
theorem sample_ordered (time : LocalTime) (scaleFactor r1 r2 r3 : ℝ)
    (hr2l : 0 ≤ r2) (hr2u : r2 ≤ 1) (hr3l : 0 ≤ r3) (hr3u : r3 ≤ 1)
    (hY : 0 ≤ (BasicSolarYieldFunc time scaleFactor r1 r2 r3).YieldKW) :
    0 ≤ (BasicSolarYieldFunc time scaleFactor r1 r2 r3).ErrLow ∧
    (BasicSolarYieldFunc time scaleFactor r1 r2 r3).ErrLow
        ≤ (BasicSolarYieldFunc time scaleFactor r1 r2 r3).YieldKW ∧
    (BasicSolarYieldFunc time scaleFactor r1 r2 r3).YieldKW
        ≤ (BasicSolarYieldFunc time scaleFactor r1 r2 r3).ErrHigh := by
  rcases eq_or_lt_of_le hY with heq | hpos
  · obtain ⟨hl, hh⟩ := errs_zero_of_yield_zero time scaleFactor r1 r2 r3 heq.symm
    rw [hl, hh, heq.symm]
    norm_num
  · obtain ⟨h1, h2, h3, h4⟩ :=
      sample_band_of_pos time scaleFactor r1 r2 r3 hr2l hr2u hr3l hr3u hpos
    exact ⟨by linarith, h2, h3⟩

/-- At any local midnight (hour = minute = second = 0) the clipped base
function is exactly 0: the double-angle argument sits at the sine minimum
and the seasonal offset cannot lift it above 0. -/
theorem basefunc_midnight (time : LocalTime) (hh : time.hour = 0)
    (hm : time.minute = 0) (hs : time.second = 0) : basefunc time = 0 := by
  unfold basefunc
  have hhour : hourOf time = (time.day : ℝ) * 24 := by
    unfold hourOf
    rw [hh, hm, hs]
    norm_num
  have harg : scaleX * hourOf time + translateX
      = -(Real.pi / 2) + ((time.day : ℤ) : ℝ) * (2 * Real.pi) := by
    unfold scaleX translateX
    rw [hhour]
    push_cast
    ring
  have hsin : Real.sin (scaleX * hourOf time + translateX) = -1 := by
    rw [harg, Real.sin_add_int_mul_two_pi, Real.sin_neg, Real.sin_pi_div_two]
  have ht : translateY time ≤ 1 / 2 := by
    unfold translateY
    have := Real.sin_le_one ((Real.pi / 6) * (time.month : ℝ) + translateX)
    linarith
  have hmax : max 0 (Real.sin (scaleX * hourOf time + translateX) + translateY time) = 0 := by
    rw [hsin]
    exact max_eq_left (by linarith)
  rw [hmax]
  norm_num

/-- At noon on June 21 the steepened base function is exactly 1: the sine is
at its maximum and the seasonal offset at its summer value 1/2. -/
theorem basefunc_midsummer : basefunc ⟨6, 21, 12, 0, 0⟩ = 1 := by
  unfold basefunc
  have hhour : hourOf ⟨6, 21, 12, 0, 0⟩ = 516 := by
    unfold hourOf
    norm_num
  have harg : scaleX * hourOf ⟨6, 21, 12, 0, 0⟩ + translateX
      = Real.pi / 2 + ((21 : ℤ) : ℝ) * (2 * Real.pi) := by
    unfold scaleX translateX
    rw [hhour]
    push_cast
    ring
  have hsin : Real.sin (scaleX * hourOf ⟨6, 21, 12, 0, 0⟩ + translateX) = 1 := by
    rw [harg, Real.sin_add_int_mul_two_pi, Real.sin_pi_div_two]
  have htY : translateY ⟨6, 21, 12, 0, 0⟩ = 1 / 2 := by
    unfold translateY
    have harg2 : (Real.pi / 6) * (((6 : ℕ) : ℝ)) + translateX = Real.pi / 2 := by
      unfold translateX
      push_cast
      ring
    rw [harg2, Real.sin_pi_div_two]
    norm_num
  rw [hsin, htY, max_eq_right (by norm_num : (0 : ℝ) ≤ 1 + 1 / 2)]
  norm_num

/-- At noon on June 21 with all draws 1/2 the yield is strictly positive
(in fact 9950). -/
theorem midsummer_yield_pos :
    0 < (BasicSolarYieldFunc ⟨6, 21, 12, 0, 0⟩ 10000 (1/2) (1/2) (1/2)).YieldKW := by
  rw [yieldKW_eq, basefunc_midsummer, noise_eq]
  norm_num

theorem pyInt_nonneg (x : ℝ) (hx : 0 ≤ x) : 0 ≤ pyInt x := by
  unfold pyInt
  rw [if_pos hx]
  exact Int.floor_nonneg.mpr hx

theorem pyInt_mono_of_nonneg (x y : ℝ) (hx : 0 ≤ x) (hxy : x ≤ y) :
    pyInt x ≤ pyInt y := by
  unfold pyInt
  rw [if_pos hx, if_pos (le_trans hx hxy)]
  exact Int.floor_le_floor hxy

/-! ## Claims about the yield function -/

/-- C1: for every local-time breakdown of a unix instant, every
scaleFactor > 0, and all random draws in [0,1], `BasicSolarYieldFunc`
returns a sample with `YieldKW ≥ 0`. -/
theorem C1_yield_nonneg (time : LocalTime) (scaleFactor r1 r2 r3 : ℝ)
    (hsf : 0 < scaleFactor) (hr1l : 0 ≤ r1) (hr1u : r1 ≤ 1)
    (hr2l : 0 ≤ r2) (hr2u : r2 ≤ 1) (hr3l : 0 ≤ r3) (hr3u : r3 ≤ 1) :
    0 ≤ (BasicSolarYieldFunc time scaleFactor r1 r2 r3).YieldKW :=
  yield_nonneg time scaleFactor r1 r2 r3 hsf.le hr1l

theorem C1_yield_nonneg_witness :
    0 ≤ (BasicSolarYieldFunc ⟨6, 21, 12, 0, 0⟩ 10000 (1/2) (1/2) (1/2)).YieldKW :=
  C1_yield_nonneg ⟨6, 21, 12, 0, 0⟩ 10000 (1/2) (1/2) (1/2)
    (by norm_num) (by norm_num) (by norm_num) (by norm_num) (by norm_num)
    (by norm_num) (by norm_num)

/-- C4: whenever the returned yield is strictly positive and the error-bound
draws lie in [0,1], the sample satisfies
`0.9*YieldKW ≤ ErrLow ≤ YieldKW ≤ ErrHigh ≤ 1.1*YieldKW`. -/
theorem C4_err_band (time : LocalTime) (scaleFactor r1 r2 r3 : ℝ)
    (hr2l : 0 ≤ r2) (hr2u : r2 ≤ 1) (hr3l : 0 ≤ r3) (hr3u : r3 ≤ 1)
    (hpos : 0 < (BasicSolarYieldFunc time scaleFactor r1 r2 r3).YieldKW) :
    0.9 * (BasicSolarYieldFunc time scaleFactor r1 r2 r3).YieldKW
        ≤ (BasicSolarYieldFunc time scaleFactor r1 r2 r3).ErrLow ∧
    (BasicSolarYieldFunc time scaleFactor r1 r2 r3).ErrLow
        ≤ (BasicSolarYieldFunc time scaleFactor r1 r2 r3).YieldKW ∧
    (BasicSolarYieldFunc time scaleFactor r1 r2 r3).YieldKW
        ≤ (BasicSolarYieldFunc time scaleFactor r1 r2 r3).ErrHigh ∧
    (BasicSolarYieldFunc time scaleFactor r1 r2 r3).ErrHigh
        ≤ 1.1 * (BasicSolarYieldFunc time scaleFactor r1 r2 r3).YieldKW :=
  sample_band_of_pos time scaleFactor r1 r2 r3 hr2l hr2u hr3l hr3u hpos

theorem C4_err_band_witness :
    0.9 * (BasicSolarYieldFunc ⟨6, 21, 12, 0, 0⟩ 10000 (1/2) (1/2) (1/2)).YieldKW
        ≤ (BasicSolarYieldFunc ⟨6, 21, 12, 0, 0⟩ 10000 (1/2) (1/2) (1/2)).ErrLow ∧
    (BasicSolarYieldFunc ⟨6, 21, 12, 0, 0⟩ 10000 (1/2) (1/2) (1/2)).ErrLow
        ≤ (BasicSolarYieldFunc ⟨6, 21, 12, 0, 0⟩ 10000 (1/2) (1/2) (1/2)).YieldKW ∧
    (BasicSolarYieldFunc ⟨6, 21, 12, 0, 0⟩ 10000 (1/2) (1/2) (1/2)).YieldKW
        ≤ (BasicSolarYieldFunc ⟨6, 21, 12, 0, 0⟩ 10000 (1/2) (1/2) (1/2)).ErrHigh ∧
    (BasicSolarYieldFunc ⟨6, 21, 12, 0, 0⟩ 10000 (1/2) (1/2) (1/2)).ErrHigh
        ≤ 1.1 * (BasicSolarYieldFunc ⟨6, 21, 12, 0, 0⟩ 10000 (1/2) (1/2) (1/2)).YieldKW :=
  C4_err_band ⟨6, 21, 12, 0, 0⟩ 10000 (1/2) (1/2) (1/2)
    (by norm_num) (by norm_num) (by norm_num) (by norm_num) midsummer_yield_pos

/-- C5: whenever the returned yield is 0, both error bounds are 0. -/
theorem C5_zero_yield_zero_errs (time : LocalTime) (scaleFactor r1 r2 r3 : ℝ)
    (h : (BasicSolarYieldFunc time scaleFactor r1 r2 r3).YieldKW = 0) :
    (BasicSolarYieldFunc time scaleFactor r1 r2 r3).ErrLow = 0 ∧
    (BasicSolarYieldFunc time scaleFactor r1 r2 r3).ErrHigh = 0 :=
  errs_zero_of_yield_zero time scaleFactor r1 r2 r3 h

theorem C5_zero_yield_zero_errs_witness :
    (BasicSolarYieldFunc ⟨12, 21, 0, 0, 0⟩ 10000 (1/2) (1/2) (1/2)).ErrLow = 0 ∧
    (BasicSolarYieldFunc ⟨12, 21, 0, 0, 0⟩ 10000 (1/2) (1/2) (1/2)).ErrHigh = 0 :=
  C5_zero_yield_zero_errs ⟨12, 21, 0, 0, 0⟩ 10000 (1/2) (1/2) (1/2)
    (by rw [yieldKW_eq, basefunc_midnight ⟨12, 21, 0, 0, 0⟩ rfl rfl rfl]; ring)

/-- C6: any local time with hour = minute = second = 0 (a midnight
timestamp), in any month, yields `YieldKW = 0` and both error bounds 0. -/
theorem C6_midnight_zero (time : LocalTime) (scaleFactor r1 r2 r3 : ℝ)
    (hh : time.hour = 0) (hm : time.minute = 0) (hs : time.second = 0) :
    (BasicSolarYieldFunc time scaleFactor r1 r2 r3).YieldKW = 0 ∧
    (BasicSolarYieldFunc time scaleFactor r1 r2 r3).ErrLow = 0 ∧
    (BasicSolarYieldFunc time scaleFactor r1 r2 r3).ErrHigh = 0 := by
  have hy : (BasicSolarYieldFunc time scaleFactor r1 r2 r3).YieldKW = 0 := by
    rw [yieldKW_eq, basefunc_midnight time hh hm hs]
    ring
  obtain ⟨hl, hr⟩ := errs_zero_of_yield_zero time scaleFactor r1 r2 r3 hy
  exact ⟨hy, hl, hr⟩

theorem C6_midnight_zero_witness :
    (BasicSolarYieldFunc ⟨12, 21, 0, 0, 0⟩ 10000 (1/2) (1/2) (1/2)).YieldKW = 0 ∧
    (BasicSolarYieldFunc ⟨12, 21, 0, 0, 0⟩ 10000 (1/2) (1/2) (1/2)).ErrLow = 0 ∧
    (BasicSolarYieldFunc ⟨12, 21, 0, 0, 0⟩ 10000 (1/2) (1/2) (1/2)).ErrHigh = 0 :=
  C6_midnight_zero ⟨12, 21, 0, 0, 0⟩ 10000 (1/2) (1/2) (1/2) rfl rfl rfl

/-- C10: the noise multiplier reduces to `r1/20 + 0.97` (the deterministic
envelope is exactly 1 because the sine is taken at an integer multiple of
pi), lies in [0.97, 1.02] for draws in [0,1], and consequently the yield is
at most `1.02 * scaleFactor` since the steepened base function is at most 1. -/
theorem C10_noise_bounds (time : LocalTime) (scaleFactor r1 r2 r3 : ℝ)
    (hr1l : 0 ≤ r1) (hr1u : r1 ≤ 1) (hsf : 0 ≤ scaleFactor) :
    noise time r1 = r1 / 20 + 0.97 ∧
    0.97 ≤ noise time r1 ∧ noise time r1 ≤ 1.02 ∧
    (BasicSolarYieldFunc time scaleFactor r1 r2 r3).YieldKW ≤ 1.02 * scaleFactor := by
  have hne := noise_eq time r1
  refine ⟨hne, by rw [hne]; linarith, by rw [hne]; linarith, ?_⟩
  rw [yieldKW_eq]
  have hb1 := basefunc_le_one time
  have hb0 := basefunc_nonneg time
  have hn : noise time r1 ≤ 1.02 := by rw [hne]; linarith
  have hn0 : 0 ≤ noise time r1 := by rw [hne]; linarith
  calc basefunc time * noise time r1 * scaleFactor
      ≤ 1 * 1.02 * scaleFactor := by
        apply mul_le_mul_of_nonneg_right _ hsf
        exact mul_le_mul hb1 hn hn0 (by norm_num)
    _ = 1.02 * scaleFactor := by ring

theorem C10_noise_bounds_witness :
    noise ⟨6, 21, 12, 0, 0⟩ (1/2) = (1/2) / 20 + 0.97 ∧
    0.97 ≤ noise ⟨6, 21, 12, 0, 0⟩ (1/2) ∧ noise ⟨6, 21, 12, 0, 0⟩ (1/2) ≤ 1.02 ∧
    (BasicSolarYieldFunc ⟨6, 21, 12, 0, 0⟩ 10000 (1/2) (1/2) (1/2)).YieldKW
      ≤ 1.02 * 10000 :=
  C10_noise_bounds ⟨6, 21, 12, 0, 0⟩ 10000 (1/2) (1/2) (1/2)
    (by norm_num) (by norm_num) (by norm_num)

/-! ## Series builder lemmas -/

/-- Sample location string used in concrete instantiations. -/
def locA : String := "any-location"

/-- Unfolding of the series builder to an explicit range-map. -/
theorem series_eq_map (localtime : ℤ → LocalTime) (draws : ℕ → ℝ × ℝ × ℝ)
    (location : String) (now1 now2 : ℤ) :
    get_predicted_solar_yields_for_location localtime draws location now1 now2
      = (List.range ((((getWindow now1 now2).2 - (getWindow now1 now2).1).tdiv step).toNat)).map
          (fun i =>
            { TimeUnix := (getWindow now1 now2).1 + Int.ofNat i * step
              YieldKW := pyInt (BasicSolarYieldFunc
                (localtime ((getWindow now1 now2).1 + Int.ofNat i * step)) 10000
                (draws i).1 (draws i).2.1 (draws i).2.2).YieldKW
              ErrLow := pyInt (BasicSolarYieldFunc
                (localtime ((getWindow now1 now2).1 + Int.ofNat i * step)) 10000
                (draws i).1 (draws i).2.1 (draws i).2.2).ErrLow
              ErrHigh := pyInt (BasicSolarYieldFunc
                (localtime ((getWindow now1 now2).1 + Int.ofNat i * step)) 10000
                (draws i).1 (draws i).2.1 (draws i).2.2).ErrHigh }) := rfl

/-- The window always spans an exact multiple of the 5-minute step: both ends
are UTC midnights, and 300 divides 86400. -/
theorem window_multiple (now1 now2 : ℤ) :
    (getWindow now1 now2).2 - (getWindow now1 now2).1
      = step * (288 * ((now2 + 2 * 86400) / 86400 - (now1 - 2 * 86400) / 86400)) := by
  unfold getWindow midnightUTC step
  ring

theorem numSteps_eq (now1 now2 : ℤ) :
    (((getWindow now1 now2).2 - (getWindow now1 now2).1).tdiv step)
      = 288 * ((now2 + 2 * 86400) / 86400 - (now1 - 2 * 86400) / 86400) := by
  rw [window_multiple]
  exact Int.mul_tdiv_cancel_left _ (by decide)

theorem window_div_300 (now1 now2 : ℤ) :
    ((getWindow now1 now2).2 - (getWindow now1 now2).1) / 300
      = 288 * ((now2 + 2 * 86400) / 86400 - (now1 - 2 * 86400) / 86400) := by
  rw [window_multiple, show step = 300 from rfl]
  exact Int.mul_ediv_cancel_left _ (by norm_num)

theorem get_range_map {α : Type} (n : ℕ) (f : ℕ → α) (i : ℕ)
    (hi : i < ((List.range n).map f).length) :
    ((List.range n).map f).get ⟨i, hi⟩ = f i := by
  rw [List.get_eq_getElem, List.getElem_map, List.getElem_range]

/-- The series always has exactly `(end - start) / 300` entries. -/
theorem series_length (localtime : ℤ → LocalTime) (draws : ℕ → ℝ × ℝ × ℝ)
    (location : String) (now1 now2 : ℤ) :
    (get_predicted_solar_yields_for_location localtime draws location now1 now2).length
      = (((getWindow now1 now2).2 - (getWindow now1 now2).1) / 300).toNat := by
  rw [series_eq_map, List.length_map, List.length_range, numSteps_eq, window_div_300]

/-- The i-th record's timestamp is exactly `start + 300 * i` (getElem form). -/
theorem series_getElem_timeUnix (localtime : ℤ → LocalTime) (draws : ℕ → ℝ × ℝ × ℝ)
    (location : String) (now1 now2 : ℤ) (i : ℕ)
    (hi : i < (get_predicted_solar_yields_for_location localtime draws location now1 now2).length) :
    ((get_predicted_solar_yields_for_location localtime draws location now1 now2)[i]).TimeUnix
      = (getWindow now1 now2).1 + 300 * (i : ℤ) := by
  simp only [series_eq_map localtime draws location now1 now2, List.getElem_map,
    List.getElem_range, Int.ofNat_eq_natCast, show step = 300 from rfl]
  ring

/-- The i-th record's timestamp is exactly `start + 300 * i`. -/
theorem series_get_timeUnix (localtime : ℤ → LocalTime) (draws : ℕ → ℝ × ℝ × ℝ)
    (location : String) (now1 now2 : ℤ) (i : ℕ)
    (hi : i < (get_predicted_solar_yields_for_location localtime draws location now1 now2).length) :
    ((get_predicted_solar_yields_for_location localtime draws location now1 now2).get
        ⟨i, hi⟩).TimeUnix
      = (getWindow now1 now2).1 + 300 * (i : ℤ) := by
  rw [List.get_eq_getElem]
  exact series_getElem_timeUnix localtime draws location now1 now2 i hi

/-! ## Claims about the series builder -/

/-- C2: for every window produced by `getWindow` and every location, the
series has exactly `floor((end - start) / 300)` records; the i-th record's
timestamp is `start + 300*i`, all timestamps lie in `[start, end)`, and they
are strictly increasing. -/
theorem C2_series_spacing (localtime : ℤ → LocalTime) (draws : ℕ → ℝ × ℝ × ℝ)
    (location : String) (now1 now2 : ℤ) :
    (get_predicted_solar_yields_for_location localtime draws location now1 now2).length
      = (((getWindow now1 now2).2 - (getWindow now1 now2).1) / 300).toNat ∧
    (∀ (i : ℕ) (hi : i <
        (get_predicted_solar_yields_for_location localtime draws location now1 now2).length),
      ((get_predicted_solar_yields_for_location localtime draws location now1 now2).get
          ⟨i, hi⟩).TimeUnix = (getWindow now1 now2).1 + 300 * (i : ℤ) ∧
      (getWindow now1 now2).1
        ≤ ((get_predicted_solar_yields_for_location localtime draws location now1 now2).get
            ⟨i, hi⟩).TimeUnix ∧
      ((get_predicted_solar_yields_for_location localtime draws location now1 now2).get
          ⟨i, hi⟩).TimeUnix < (getWindow now1 now2).2) ∧
    (∀ (i j : ℕ)
      (hi : i <
        (get_predicted_solar_yields_for_location localtime draws location now1 now2).length)
      (hj : j <
        (get_predicted_solar_yields_for_location localtime draws location now1 now2).length),
      i < j →
      ((get_predicted_solar_yields_for_location localtime draws location now1 now2).get
          ⟨i, hi⟩).TimeUnix
        < ((get_predicted_solar_yields_for_location localtime draws location now1 now2).get
            ⟨j, hj⟩).TimeUnix) := by
  refine ⟨series_length localtime draws location now1 now2, ?_, ?_⟩
  · intro i hi
    have ht := series_get_timeUnix localtime draws location now1 now2 i hi
    refine ⟨ht, ?_, ?_⟩
    · rw [ht]
      have : (0 : ℤ) ≤ (i : ℤ) := Int.natCast_nonneg i
      linarith
    · rw [ht]
      have hlen := series_length localtime draws location now1 now2
      rw [hlen] at hi
      have hi' : (i : ℤ) < ((getWindow now1 now2).2 - (getWindow now1 now2).1) / 300 :=
        Int.lt_toNat.mp hi
      rw [window_div_300] at hi'
      have hmul := window_multiple now1 now2
      rw [show step = 300 from rfl] at hmul
      linarith
  · intro i j hi hj hij
    rw [series_get_timeUnix localtime draws location now1 now2 i hi,
      series_get_timeUnix localtime draws location now1 now2 j hj]
    have : (i : ℤ) < (j : ℤ) := by exact_mod_cast hij
    linarith

/-- C3: every record carries an exact integer epoch-second timestamp
`start + 300*i` together with the integer truncations of the corresponding
sample's yield and error-bound fields. -/
theorem C3_record_fields (localtime : ℤ → LocalTime) (draws : ℕ → ℝ × ℝ × ℝ)
    (location : String) (now1 now2 : ℤ) :
    ∀ rec ∈ get_predicted_solar_yields_for_location localtime draws location now1 now2,
      ∃ i : ℕ,
      rec.TimeUnix = (getWindow now1 now2).1 + 300 * (i : ℤ) ∧
      rec.YieldKW = pyInt (BasicSolarYieldFunc
        (localtime ((getWindow now1 now2).1 + 300 * (i : ℤ))) 10000
        (draws i).1 (draws i).2.1 (draws i).2.2).YieldKW ∧
      rec.ErrLow = pyInt (BasicSolarYieldFunc
        (localtime ((getWindow now1 now2).1 + 300 * (i : ℤ))) 10000
        (draws i).1 (draws i).2.1 (draws i).2.2).ErrLow ∧
      rec.ErrHigh = pyInt (BasicSolarYieldFunc
        (localtime ((getWindow now1 now2).1 + 300 * (i : ℤ))) 10000
        (draws i).1 (draws i).2.1 (draws i).2.2).ErrHigh := by
  intro rec hrec
  rw [series_eq_map] at hrec
  obtain ⟨i, hmem, rfl⟩ := List.mem_map.mp hrec
  have harg : (getWindow now1 now2).1 + Int.ofNat i * step
      = (getWindow now1 now2).1 + 300 * (i : ℤ) := by
    rw [show step = 300 from rfl, Int.ofNat_eq_natCast]
    ring
  refine ⟨i, harg, ?_, ?_, ?_⟩
  · show pyInt (BasicSolarYieldFunc
        (localtime ((getWindow now1 now2).1 + Int.ofNat i * step)) 10000
        (draws i).1 (draws i).2.1 (draws i).2.2).YieldKW = _
    rw [harg]
  · show pyInt (BasicSolarYieldFunc
        (localtime ((getWindow now1 now2).1 + Int.ofNat i * step)) 10000
        (draws i).1 (draws i).2.1 (draws i).2.2).ErrLow = _
    rw [harg]
  · show pyInt (BasicSolarYieldFunc
        (localtime ((getWindow now1 now2).1 + Int.ofNat i * step)) 10000
        (draws i).1 (draws i).2.1 (draws i).2.2).ErrHigh = _
    rw [harg]

/-- C7: the location string (and even the random draws and the local-time
conversion) have no influence on the number of records or their timestamps:
two calls over the same window agree on length and on every TimeUnix. -/
theorem C7_location_agnostic (lt1 lt2 : ℤ → LocalTime) (d1 d2 : ℕ → ℝ × ℝ × ℝ)
    (loc1 loc2 : String) (now1 now2 : ℤ) :
    (get_predicted_solar_yields_for_location lt1 d1 loc1 now1 now2).length
      = (get_predicted_solar_yields_for_location lt2 d2 loc2 now1 now2).length ∧
    (get_predicted_solar_yields_for_location lt1 d1 loc1 now1 now2).map
        DBPredictedYield.TimeUnix
      = (get_predicted_solar_yields_for_location lt2 d2 loc2 now1 now2).map
        DBPredictedYield.TimeUnix := by
  constructor
  · rw [series_length lt1 d1 loc1 now1 now2, series_length lt2 d2 loc2 now1 now2]
  · apply List.ext_getElem
    · rw [List.length_map, List.length_map, series_length lt1 d1 loc1 now1 now2,
        series_length lt2 d2 loc2 now1 now2]
    · intro n h1 h2
      rw [List.length_map] at h1 h2
      rw [List.getElem_map, List.getElem_map,
        series_getElem_timeUnix lt1 d1 loc1 now1 now2 n h1,
        series_getElem_timeUnix lt2 d2 loc2 now1 now2 n h2]

/-- C8: a degenerate window (end at or before start) produces the empty
sequence; the builder never signals a failure. -/
theorem C8_degenerate_window_empty (localtime : ℤ → LocalTime) (draws : ℕ → ℝ × ℝ × ℝ)
    (location : String) (now1 now2 : ℤ)
    (h : (getWindow now1 now2).2 ≤ (getWindow now1 now2).1) :
    get_predicted_solar_yields_for_location localtime draws location now1 now2 = [] := by
  rw [series_eq_map]
  have hK : (((getWindow now1 now2).2 - (getWindow now1 now2).1).tdiv step).toNat = 0 := by
    rw [numSteps_eq, Int.toNat_eq_zero]
    have hmul := window_multiple now1 now2
    rw [show step = 300 from rfl] at hmul
    linarith
  rw [hK]
  rfl

theorem C8_degenerate_window_empty_witness :
    get_predicted_solar_yields_for_location (fun _ => ⟨1, 1, 0, 0, 0⟩)
      (fun _ => ((0 : ℝ), (0 : ℝ), (0 : ℝ))) locA 1000000 (-1000000) = [] :=
  C8_degenerate_window_empty (fun _ => ⟨1, 1, 0, 0, 0⟩)
    (fun _ => ((0 : ℝ), (0 : ℝ), (0 : ℝ))) locA 1000000 (-1000000) (by decide)

/-- C9: with all random draws in [0,1], every record of the series satisfies
`0 ≤ ErrLow ≤ YieldKW ≤ ErrHigh` on the integer-truncated fields. -/
theorem C9_truncated_band (localtime : ℤ → LocalTime) (draws : ℕ → ℝ × ℝ × ℝ)
    (location : String) (now1 now2 : ℤ)
    (hd : ∀ i : ℕ, 0 ≤ (draws i).1 ∧ (draws i).1 ≤ 1 ∧ 0 ≤ (draws i).2.1 ∧
      (draws i).2.1 ≤ 1 ∧ 0 ≤ (draws i).2.2 ∧ (draws i).2.2 ≤ 1) :
    ∀ rec ∈ get_predicted_solar_yields_for_location localtime draws location now1 now2,
      0 ≤ rec.ErrLow ∧ rec.ErrLow ≤ rec.YieldKW ∧ rec.YieldKW ≤ rec.ErrHigh := by
  intro rec hrec
  rw [series_eq_map] at hrec
  obtain ⟨i, hmem, rfl⟩ := List.mem_map.mp hrec
  obtain ⟨h1, h2, h3, h4, h5, h6⟩ := hd i
  have hY := yield_nonneg
    (localtime ((getWindow now1 now2).1 + Int.ofNat i * step)) 10000
    (draws i).1 (draws i).2.1 (draws i).2.2 (by norm_num) h1
  obtain ⟨ho1, ho2, ho3⟩ := sample_ordered
    (localtime ((getWindow now1 now2).1 + Int.ofNat i * step)) 10000
    (draws i).1 (draws i).2.1 (draws i).2.2 h3 h4 h5 h6 hY
  exact ⟨pyInt_nonneg _ ho1, pyInt_mono_of_nonneg _ _ ho1 ho2,
    pyInt_mono_of_nonneg _ _ hY ho3⟩

/-! ## Concrete instantiations for witnesses -/

/-- A concrete local-time conversion (constant June-21-noon breakdown). -/
def ltW : ℤ → LocalTime := fun _ => ⟨6, 21, 12, 0, 0⟩

/-- A concrete stream of random draws, all 1/2. -/
noncomputable def dW : ℕ → ℝ × ℝ × ℝ := fun _ => (1/2, 1/2, 1/2)

theorem seriesW_length_pos :
    0 < (get_predicted_solar_yields_for_location ltW dW locA 0 0).length := by
  rw [series_length]
  decide

theorem C2_series_spacing_witness :
    ((get_predicted_solar_yields_for_location ltW dW locA 0 0).get
        ⟨0, seriesW_length_pos⟩).TimeUnix
      = (getWindow 0 0).1 + 300 * ((0 : ℕ) : ℤ) :=
  ((C2_series_spacing ltW dW locA 0 0).2.1 0 seriesW_length_pos).1

/-- The first record of the concrete series. -/
noncomputable def recW : DBPredictedYield :=
  (get_predicted_solar_yields_for_location ltW dW locA 0 0).get ⟨0, seriesW_length_pos⟩

theorem recW_mem :
    recW ∈ get_predicted_solar_yields_for_location ltW dW locA 0 0 :=
  List.get_mem _ 0 seriesW_length_pos

theorem C3_record_fields_witness :
    ∃ i : ℕ,
      recW.TimeUnix = (getWindow 0 0).1 + 300 * (i : ℤ) ∧
      recW.YieldKW = pyInt (BasicSolarYieldFunc
        (ltW ((getWindow 0 0).1 + 300 * (i : ℤ))) 10000
        (dW i).1 (dW i).2.1 (dW i).2.2).YieldKW ∧
      recW.ErrLow = pyInt (BasicSolarYieldFunc
        (ltW ((getWindow 0 0).1 + 300 * (i : ℤ))) 10000
        (dW i).1 (dW i).2.1 (dW i).2.2).ErrLow ∧
      recW.ErrHigh = pyInt (BasicSolarYieldFunc
        (ltW ((getWindow 0 0).1 + 300 * (i : ℤ))) 10000
        (dW i).1 (dW i).2.1 (dW i).2.2).ErrHigh :=
  C3_record_fields ltW dW locA 0 0 recW recW_mem

theorem C9_truncated_band_witness :
    0 ≤ recW.ErrLow ∧ recW.ErrLow ≤ recW.YieldKW ∧ recW.YieldKW ≤ recW.ErrHigh :=
  C9_truncated_band ltW dW locA 0 0
    (fun i => by norm_num [dW]) recW recW_mem
